import Mathlib

/-!
Shallow embedding of the finding-ingestion and triage pipeline of the
`Diplom` repository (SVACE/AppScreener report annotator), together with
proofs checking the natural-language specification against the code.

Conventions of the embedding:
* Python strings are Lean `String`s; `str.lower()` is modelled by
  `pyLowerStr`, which covers ASCII and the Cyrillic block actually used by
  the program (`А`–`Я`, `Ё`).
* Python `None`-able values are `Option`s; Python truthiness on strings
  (`a or b`) is modelled by `orTruthy` (empty string counts as falsy).
* `json.loads` is modelled by `jsonLoads`, a total fuel-based parser for
  the JSON grammar (objects, arrays, strings with escapes, numbers,
  literals); it rejects trailing non-whitespace exactly as `json.loads`
  does.
* Paths are treated with POSIX semantics (`/` separators), matching
  `pathlib.PurePosixPath.parts` on the inputs the claims exercise.
* Floats carried by the program (confidence values) are modelled as `ℚ`;
  every arithmetic operation performed on them by the code (division by
  100, clamping, comparison with 1) is exact in `ℚ`.
-/

set_option linter.unusedVariables false

namespace Diplom

/-! ### Python string primitives -/

/-- `str.lower()` restricted to ASCII letters and the Cyrillic letters the
program manipulates (`А`–`Я` → `а`–`я`, `Ё` → `ё`). -/
def pyLowerChar (c : Char) : Char :=
  if 'A' ≤ c ∧ c ≤ 'Z' then Char.ofNat (c.toNat + 32)
  else if c.toNat ≥ 0x410 ∧ c.toNat ≤ 0x42F then Char.ofNat (c.toNat + 32)
  else if c.toNat = 0x401 then Char.ofNat 0x451
  else c

def pyLowerStr (s : String) : String := ⟨s.data.map pyLowerChar⟩

/-- `str.upper()` restricted in the same way. -/
def pyUpperChar (c : Char) : Char :=
  if 'a' ≤ c ∧ c ≤ 'z' then Char.ofNat (c.toNat - 32)
  else if c.toNat ≥ 0x430 ∧ c.toNat ≤ 0x44F then Char.ofNat (c.toNat - 32)
  else if c.toNat = 0x451 then Char.ofNat 0x401
  else c

def pyUpperStr (s : String) : String := ⟨s.data.map pyUpperChar⟩

/-- The ASCII whitespace characters stripped by `str.strip()`. -/
def isPyWs (c : Char) : Bool :=
  c = ' ' ∨ c = '\t' ∨ c = '\n' ∨ c = '\r' ∨ c = Char.ofNat 11 ∨ c = Char.ofNat 12

def stripList (l : List Char) : List Char :=
  ((l.dropWhile isPyWs).reverse.dropWhile isPyWs).reverse

/-- `str.strip()`. -/
def stripStr (s : String) : String := ⟨stripList s.data⟩

/-- Does `pre` begin `l`? -/
def listStarts (pre l : List Char) : Bool :=
  match pre, l with
  | [], _ => true
  | _ :: _, [] => false
  | a :: as, b :: bs => a = b && listStarts as bs

/-- Does `needle` occur contiguously inside `hay`? -/
def listHasSub (needle hay : List Char) : Bool :=
  match hay with
  | [] => needle.isEmpty
  | _ :: tl => listStarts needle hay || listHasSub needle tl

/-- Python `needle in hay` on strings. -/
def containsSub (hay needle : String) : Bool := listHasSub needle.data hay.data

/-- `str.startswith(pre)`. -/
def strStarts (s pre : String) : Bool := listStarts pre.data s.data

/-- `str.endswith(suf)`. -/
def strEnds (s suf : String) : Bool := listStarts suf.data.reverse s.data.reverse

/-- `str.split(sep)` for a one-character separator. -/
def splitOnCharAux (sep : Char) (cur : List Char) : List Char → List (List Char)
  | [] => [cur.reverse]
  | c :: cs =>
    if c = sep then cur.reverse :: splitOnCharAux sep [] cs
    else splitOnCharAux sep (c :: cur) cs

def splitOnChar (s : String) (sep : Char) : List String :=
  (splitOnCharAux sep [] s.data).map (fun l => ⟨l⟩)

/-- `str.replace(old, new)` for one-character patterns. -/
def replaceChar (s : String) (old new : Char) : String :=
  ⟨s.data.map (fun c => if c = old then new else c)⟩

/-- Python string `or` (empty string is falsy). -/
def orTruthy (a b : String) : String := if a = "" then b else a

/-- Python `opt or default` where `opt : Option String` and both `None` and
`""` are falsy. -/
def orTruthyOpt (a : Option String) (b : String) : String :=
  match a with
  | some s => orTruthy s b
  | none => b

/-! ### JSON values and `json.loads`

`AIAnnotator._parse_answer` runs `json.loads` on the substring it slices
out of the model answer; `jsonLoads` models that call: a strict RFC-8259
parser that fails on trailing non-whitespace. -/

inductive PyJson where
  | null : PyJson
  | boolean : Bool → PyJson
  | number : String → PyJson
  | string : String → PyJson
  | array : List PyJson → PyJson
  | obj : List (String × PyJson) → PyJson
deriving Repr, Inhabited

/-- JSON whitespace (`json.loads` accepts space, tab, LF, CR). -/
def jsonWs (c : Char) : Bool := c = ' ' ∨ c = '\t' ∨ c = '\n' ∨ c = '\r'

def dropJsonWs (l : List Char) : List Char := l.dropWhile jsonWs

def isJsonDigit (c : Char) : Bool := '0' ≤ c ∧ c ≤ '9'

def spanDigits : List Char → List Char × List Char
  | [] => ([], [])
  | c :: cs =>
    if isJsonDigit c then
      let (ds, rest) := spanDigits cs
      (c :: ds, rest)
    else ([], c :: cs)

def hexDigitVal (c : Char) : Option Nat :=
  if '0' ≤ c ∧ c ≤ '9' then some (c.toNat - '0'.toNat)
  else if 'a' ≤ c ∧ c ≤ 'f' then some (c.toNat - 'a'.toNat + 10)
  else if 'A' ≤ c ∧ c ≤ 'F' then some (c.toNat - 'A'.toNat + 10)
  else none

/-- Contents of a JSON string literal, after the opening quote. -/
def scanJsonString (acc : List Char) : List Char → Option (String × List Char)
  | [] => none
  | '"' :: rest => some (⟨acc.reverse⟩, rest)
  | '\\' :: esc => scanEscape acc esc
  | c :: rest => scanJsonString (c :: acc) rest
where
  scanEscape (acc : List Char) : List Char → Option (String × List Char)
    | '"' :: r => scanJsonString ('"' :: acc) r
    | '\\' :: r => scanJsonString ('\\' :: acc) r
    | '/' :: r => scanJsonString ('/' :: acc) r
    | 'b' :: r => scanJsonString (Char.ofNat 8 :: acc) r
    | 'f' :: r => scanJsonString (Char.ofNat 12 :: acc) r
    | 'n' :: r => scanJsonString ('\n' :: acc) r
    | 'r' :: r => scanJsonString ('\r' :: acc) r
    | 't' :: r => scanJsonString ('\t' :: acc) r
    | 'u' :: a :: b :: c :: d :: r =>
      match hexDigitVal a, hexDigitVal b, hexDigitVal c, hexDigitVal d with
      | some va, some vb, some vc, some vd =>
        scanJsonString (Char.ofNat (((va * 16 + vb) * 16 + vc) * 16 + vd) :: acc) r
      | _, _, _, _ => none
    | _ => none

/-- A JSON number token; returns the consumed characters (the numeric value
is never used by the triage logic, only its presence). -/
def scanJsonNumber (l : List Char) : Option (String × List Char) :=
  let (sign, l1) := match l with
    | '-' :: r => (['-'], r)
    | _ => (([] : List Char), l)
  match l1 with
  | '0' :: r => finish sign ['0'] r
  | c :: _ =>
    if isJsonDigit c then
      let (ds, r) := spanDigits l1
      finish sign ds r
    else none
  | [] => none
where
  finish (sign intPart : List Char) (r : List Char) : Option (String × List Char) :=
    let (fracPart, r2) : List Char × List Char :=
      match r with
      | '.' :: rf =>
        let (ds, rr) := spanDigits rf
        if ds.isEmpty then ([], r) else ('.' :: ds, rr)
      | _ => ([], r)
    let (expPart, r3) : List Char × List Char :=
      match r2 with
      | e :: rest =>
        if e = 'e' ∨ e = 'E' then
          match rest with
          | s :: rest2 =>
            if s = '+' ∨ s = '-' then
              let (ds, rr) := spanDigits rest2
              if ds.isEmpty then ([], r2) else (e :: s :: ds, rr)
            else
              let (ds, rr) := spanDigits rest
              if ds.isEmpty then ([], r2) else (e :: ds, rr)
          | [] => ([], r2)
        else ([], r2)
      | [] => ([], r2)
    some (⟨sign ++ intPart ++ fracPart ++ expPart⟩, r3)

mutual

def jsonValue : Nat → List Char → Option (PyJson × List Char)
  | 0, _ => none
  | fuel + 1, l =>
    match dropJsonWs l with
    | 'n' :: 'u' :: 'l' :: 'l' :: r => some (.null, r)
    | 't' :: 'r' :: 'u' :: 'e' :: r => some (.boolean true, r)
    | 'f' :: 'a' :: 'l' :: 's' :: 'e' :: r => some (.boolean false, r)
    | '"' :: r =>
      match scanJsonString [] r with
      | some (s, r2) => some (.string s, r2)
      | none => none
    | '[' :: r =>
      (match dropJsonWs r with
       | ']' :: r2 => some (.array [], r2)
       | l2 =>
         match jsonElements fuel l2 with
         | some (es, r2) => some (.array es, r2)
         | none => none)
    | '{' :: r =>
      (match dropJsonWs r with
       | '}' :: r2 => some (.obj [], r2)
       | l2 =>
         match jsonMembers fuel l2 with
         | some (ms, r2) => some (.obj ms, r2)
         | none => none)
    | l2 =>
      match scanJsonNumber l2 with
      | some (n, r2) => some (.number n, r2)
      | none => none

def jsonElements : Nat → List Char → Option (List PyJson × List Char)
  | 0, _ => none
  | fuel + 1, l =>
    match jsonValue fuel l with
    | none => none
    | some (v, r) =>
      match dropJsonWs r with
      | ',' :: r2 =>
        (match jsonElements fuel r2 with
         | some (vs, r3) => some (v :: vs, r3)
         | none => none)
      | ']' :: r2 => some ([v], r2)
      | _ => none

def jsonMembers : Nat → List Char → Option (List (String × PyJson) × List Char)
  | 0, _ => none
  | fuel + 1, l =>
    match dropJsonWs l with
    | '"' :: r =>
      (match scanJsonString [] r with
       | none => none
       | some (k, r1) =>
         match dropJsonWs r1 with
         | ':' :: r2 =>
           (match jsonValue fuel r2 with
            | none => none
            | some (v, r3) =>
              match dropJsonWs r3 with
              | ',' :: r4 =>
                (match jsonMembers fuel r4 with
                 | some (ms, r5) => some ((k, v) :: ms, r5)
                 | none => none)
              | '}' :: r4 => some ([(k, v)], r4)
              | _ => none)
         | _ => none)
    | _ => none

end

/-- `json.loads`: parse a complete document, allowing only trailing
whitespace. -/
def jsonLoads (s : String) : Option PyJson :=
  match jsonValue (s.data.length + 1) s.data with
  | some (v, rest) => if (dropJsonWs rest).isEmpty then some v else none
  | none => none

/-- `dict.get` on a parsed object (later duplicate keys win, as in
`json.loads`). -/
def jsonGet (kvs : List (String × PyJson)) (k : String) : Option PyJson :=
  (kvs.reverse.find? (fun kv => kv.1 = k)).map (·.2)

mutual

/-- Python `repr` of a decoded JSON value (containers print with single
quotes, scalars as Python literals). -/
def pyRepr : PyJson → String
  | .null => "None"
  | .boolean b => if b then "True" else "False"
  | .number s => s
  | .string s => "\x27" ++ s ++ "\x27"
  | .array xs => "[" ++ String.intercalate ", " (pyReprElems xs) ++ "]"
  | .obj kvs => "\x7b" ++ String.intercalate ", " (pyReprPairs kvs) ++ "\x7d"

def pyReprElems : List PyJson → List String
  | [] => []
  | x :: xs => pyRepr x :: pyReprElems xs

def pyReprPairs : List (String × PyJson) → List String
  | [] => []
  | (k, v) :: ms => ("\x27" ++ k ++ "\x27: " ++ pyRepr v) :: pyReprPairs ms

end

/-- Python `str()` of a decoded JSON value. -/
def pyStr (j : PyJson) : String :=
  match j with
  | .string s => s
  | other => pyRepr other

/-! ### Paths (POSIX semantics, as `pathlib.PurePosixPath`) -/

/-- `PurePosixPath(p).parts` without the root marker: empty and `.`
segments are dropped, `..` is kept. -/
def pathParts (p : String) : List String :=
  (splitOnChar p '/').filter (fun s => s ≠ "" ∧ s ≠ ".")

/-- `PurePosixPath(p).name`. -/
def pathName (p : String) : String := ((pathParts p).getLast?).getD ""

/-- `PurePosixPath(p).as_posix()`: the normalized path text. -/
def asPosix (p : String) : String :=
  (if strStarts p "/" then "/" else "") ++ String.intercalate "/" (pathParts p)

/-! ### `services/analysis/heuristics.py` -/

/-- `HeuristicContext` from `services/analysis/heuristics.py`. -/
structure HeuristicContext where
  file_path : String
  file_role : String
  is_test : Bool
  is_doc : Bool
  is_example : Bool
  is_config : Bool
  is_locale : Bool
  is_frontend : Bool
  is_third_party : Bool
  rule_family : String
  severity : String
  tags : List String
  risk_hint : String
  summary : String
deriving Repr

/-- `_detect_file_role`: rough file-role classification by path, first
matching branch wins; returns the role with its tag list. -/
def detectFileRole (path : String) : String × List String :=
  let parts := (pathParts path).map pyLowerStr
  let name := pyLowerStr (pathName path)
  if parts.contains "tests" || strStarts name "test_" || strEnds name "_test.py"
      || containsSub (asPosix path) "/tests/" then
    ("test", ["test-file"])
  else if parts.contains "docs" || parts.contains "doc" || parts.contains "howto"
      || parts.contains "topics" || strEnds name ".txt" || strEnds name ".rst" then
    ("doc", ["documentation"])
  else if strEnds name ".po" || parts.contains "locale" then
    ("locale", ["locale"])
  else if [".html", ".js", ".ts", ".css"].any (fun e => strEnds name e) then
    ("frontend", ["frontend"])
  else if [".yml", ".yaml", ".ini", ".cfg", ".json"].any (fun e => strEnds name e) then
    ("config", ["config-file"])
  else if name == "settings.py" || name == "config.py" then
    ("config", ["config-file"])
  else if parts.contains "site-packages" || parts.contains "dist-packages" then
    ("third_party", ["third-party"])
  else
    ("prod", [])

/-- `_detect_rule_family`. -/
def detectRuleFamily (rule_id : String) : String :=
  let r := pyUpperStr rule_id
  if containsSub r "CRYPTO" || containsSub r "PASSWORD" || containsSub r "SECRET" then "crypto"
  else if containsSub r "SQL" then "sql"
  else if containsSub r "XSS" then "xss"
  else if containsSub r "CONFIG" then "config"
  else if containsSub r "AUTH" || containsSub r "SESSION" then "auth"
  else "other"

/-- `_normalize_severity`. -/
def normalizeSeverity (level : String) : String :=
  let lvl := pyLowerStr level
  if containsSub lvl "crit" then "critical"
  else if containsSub lvl "med" then "medium"
  else if containsSub lvl "low" then "low"
  else if containsSub lvl "info" then "info"
  else "unknown"

/-- `analyze_warning`: builds the heuristic context handed to the LLM
(the `code` argument is accepted but unused, as in the source). -/
def analyzeWarning (rule_id file_path level code text : String) : HeuristicContext :=
  let roleTags := detectFileRole file_path
  let file_role := roleTags.1
  let rule_family := detectRuleFamily rule_id
  let severity := normalizeSeverity level
  let is_test := file_role == "test"
  let is_doc := file_role == "doc" || file_role == "example"
  let is_example := containsSub (pyLowerStr text) "example"
  let is_config := file_role == "config"
  let is_locale := file_role == "locale"
  let is_frontend := file_role == "frontend"
  let is_third_party := file_role == "third_party"
  let risk_hint :=
    if is_test || is_doc || is_locale || is_third_party then "likely_fp"
    else if (rule_family == "crypto" || rule_family == "sql" || rule_family == "auth")
        && (severity == "critical" || severity == "medium") then "likely_tp"
    else "unclear"
  let summary :=
    if is_test then "Файл с тестами, изменение поведения в проде маловероятно."
    else if is_doc then "Документация / пример кода, обычно не исполняется в проде."
    else if is_config then "Конфигурационный файл, изменения влияют на окружение."
    else if is_frontend then "Фронтенд-код (HTML/JS/CSS)."
    else if is_locale then "Файл локализации (строки интерфейса)."
    else if is_third_party then "Сторонняя библиотека (site-packages/dist-packages)."
    else "Обычный рабочий код приложения."
  let familyTag : List String :=
    if rule_family == "crypto" then ["crypto"]
    else if rule_family == "sql" then ["sql"]
    else if rule_family == "xss" then ["xss"]
    else if rule_family == "auth" then ["auth"]
    else []
  let exampleTag : List String := if is_example then ["example-in-text"] else []
  { file_path := file_path
    file_role := file_role
    is_test := is_test
    is_doc := is_doc
    is_example := is_example
    is_config := is_config
    is_locale := is_locale
    is_frontend := is_frontend
    is_third_party := is_third_party
    rule_family := rule_family
    severity := severity
    tags := roleTags.2 ++ familyTag ++ exampleTag
    risk_hint := risk_hint
    summary := summary }

/-! ### `services/llm/annotator.py` — `AIAnnotator` -/

/-- The fixed comment substituted when the model answer cannot be used. -/
def fallbackComment : String :=
  "Модель вернула некорректный ответ, использован результат по эвристике."

/-- The slice `raw[raw.index("\x7b") : raw.rindex("\x7d") + 1]` attempted by
`_parse_answer`; `none` models the `ValueError` when a brace is missing
(`index`/`rindex` are the offsets of the first opening and last closing
brace, so the end of the slice is `length - findIdx-on-the-reverse`). -/
def extractCandidate (l : List Char) : Option (List Char) :=
  if l.findIdx (fun c => c == '{') = l.length
      ∨ l.reverse.findIdx (fun c => c == '}') = l.length then none
  else
    some ((l.drop (l.findIdx (fun c => c == '{'))).take
      (l.length - l.reverse.findIdx (fun c => c == '}') - l.findIdx (fun c => c == '{')))

/-- Python-ordering comparison of strings (code-point lexicographic). -/
def charsLt (a b : List Char) : Bool :=
  match a, b with
  | [], [] => false
  | [], _ :: _ => true
  | _ :: _, [] => false
  | x :: xs, y :: ys => if x = y then charsLt xs ys else decide (x < y)

def insertSortedStr (s : String) : List String → List String
  | [] => [s]
  | t :: ts => if charsLt s.data t.data then s :: t :: ts else t :: insertSortedStr s ts

/-- Python `sorted` on strings. -/
def sortStrings : List String → List String
  | [] => []
  | s :: ss => insertSortedStr s (sortStrings ss)

/-- First-occurrence deduplication (the contents of Python `set(...)`). -/
def dedupStringsAux (seen : List String) : List String → List String
  | [] => []
  | s :: ss =>
    if seen.contains s then dedupStringsAux seen ss
    else s :: dedupStringsAux (s :: seen) ss

def dedupStrings (l : List String) : List String := dedupStringsAux [] l

/-- `AIAnnotator._parse_answer` on a string answer: always returns a
`(status_ru, comment)` pair, falling back to the heuristic guess when no
JSON verdict can be recovered.  The `isinstance(raw, dict)` branch is not
modelled: both clients' `generate`/`complete_text` return `str`. -/
def parseAnswer (rawAnswer : String) (ctx : HeuristicContext) : String × String :=
  let raw := stripStr rawAnswer
  let defaultStatus := if ctx.risk_hint == "likely_tp" then "Подтверждено" else "Отклонено"
  if raw == "" then (defaultStatus, fallbackComment)
  else
    match extractCandidate raw.data with
    | none => (defaultStatus, fallbackComment)
    | some slice =>
      match jsonLoads ⟨slice⟩ with
      | none => (defaultStatus, fallbackComment)
      | some data =>
        match data with
        | .obj kvs =>
          let status_raw := stripStr (pyStr ((jsonGet kvs "status").getD (.string "")))
          let comment0 := stripStr (pyStr ((jsonGet kvs "comment").getD (.string "")))
          let comment := if comment0 == "" then fallbackComment else comment0
          let status_low := pyLowerStr status_raw
          let status_ru :=
            if strStarts status_low "подтверж" then "Подтверждено"
            else if strStarts status_low "откл" || strStarts status_low "false"
                || strStarts status_low "fp" then "Отклонено"
            else
              match jsonGet kvs "is_security_issue" with
              | some (.boolean b) => if b then "Подтверждено" else "Отклонено"
              | _ => defaultStatus
          (status_ru, comment)
        | _ =>
          -- unreachable: the extracted slice begins with a brace, so a
          -- successful parse yields an object
          (defaultStatus, fallbackComment)

/-- The result dictionary returned by `AIAnnotator.annotate_one`. -/
structure AiResult where
  status : String
  severity : String
  comment : String
  confidence : ℚ
  label : String
deriving Repr

/-- The `base_conf` computation of `annotate_one`: 0.7, raised to 0.9 for
`likely_tp` and 0.85 for `likely_fp`. -/
def baseConfOf (risk_hint : String) : ℚ :=
  if risk_hint == "likely_tp" then 9/10
  else if risk_hint == "likely_fp" then 17/20
  else 7/10

/-- The severity block of `annotate_one`: heuristic severity, else the
report level, else `info`; anything outside the four-value set becomes
`info`. -/
def severityOfCtx (ctx : HeuristicContext) (level : String) : String :=
  let sev := orTruthy ctx.severity (orTruthy level "info")
  if sev == "critical" || sev == "medium" || sev == "low" || sev == "info" then sev
  else "info"

/-- The label block of `annotate_one`: rule family plus tags, deduplicated
and sorted, comma-joined. -/
def labelOf (ctx : HeuristicContext) : String :=
  let parts := (if ctx.rule_family == "" then [] else [ctx.rule_family]) ++ ctx.tags
  if parts.isEmpty then ""
  else String.intercalate "," (sortStrings (dedupStrings parts))

/-- The `normalized_status` computation of `annotate_one`. -/
def annotateStatusOf (status_ru : String) : String :=
  if strStarts (pyLowerStr status_ru) "подтверж" then "confirmed" else "false_positive"

/-- `AIAnnotator.annotate_one`, with the oracle transport factored out:
`rawAnswer` is the text returned by `self.client.generate(prompt)` (the
prompt itself does not influence the produced record).  `line`, `code` and
`status` are accepted as in the source; only `code`/`text` feed the
heuristic context. -/
def annotateOne (rule level file_path : String) (line : Int)
    (code text status rawAnswer : String) : AiResult :=
  { status :=
      annotateStatusOf (parseAnswer rawAnswer (analyzeWarning rule file_path level code text)).1
    severity := severityOfCtx (analyzeWarning rule file_path level code text) level
    comment := (parseAnswer rawAnswer (analyzeWarning rule file_path level code text)).2
    confidence := baseConfOf (analyzeWarning rule file_path level code text).risk_hint
    label := labelOf (analyzeWarning rule file_path level code text) }

/-! ### `ui/main_window.py` — `MainWindow._coerce_ai_result` -/

/-- The normalized record produced by `_coerce_ai_result`. -/
structure CoercedResult where
  status : String
  severity : String
  comment : String
  confidence : ℚ
  label : String
deriving Repr

/-- The confidence normalization of `_coerce_ai_result`: values above 1
are treated as a 0–100 scale, then the result is clamped to `[0, 1]`. -/
def coerceConf (c : ℚ) : ℚ :=
  let c2 := if c > 1 then c / 100 else c
  max 0 (min 1 c2)

/-- The status normalization of `_coerce_ai_result`. -/
def coerceStatus (s : String) : String :=
  if pyLowerStr s == "confirmed" || pyLowerStr s == "false_positive" then pyLowerStr s
  else "false_positive"

/-- The severity normalization of `_coerce_ai_result`. -/
def coerceSeverity (s : String) : String :=
  if pyLowerStr s == "critical" || pyLowerStr s == "medium" || pyLowerStr s == "low"
      || pyLowerStr s == "info" then pyLowerStr s
  else "info"

/-- `MainWindow._coerce_ai_result` on the dictionary produced by
`annotate_one` (the dict branch of the source; the tuple/attribute
branches feed the same normalization). -/
def coerceAiResult (r : AiResult) : CoercedResult :=
  { status := coerceStatus r.status
    severity := coerceSeverity r.severity
    comment := stripStr r.comment
    confidence := coerceConf r.confidence
    label := stripStr r.label }

/-- The per-finding AI path of the UI: `_ai_progressed` applies
`_coerce_ai_result` to the dictionary produced by `annotate_one`. -/
def finalDisposition (rule level file_path : String) (line : Int)
    (code text status rawAnswer : String) : CoercedResult :=
  coerceAiResult (annotateOne rule level file_path line code text status rawAnswer)

/-! ### `services/sarif_reader.py` -/

structure SnippetNode where
  text : Option String := none
deriving Repr

structure RegionNode where
  startLine : Option Int := none
  startColumn : Option Int := none
  endLine : Option Int := none
  endColumn : Option Int := none
  snippet : Option SnippetNode := none
deriving Repr

structure PhysicalNode where
  region : Option RegionNode := none
deriving Repr

structure LocationNode where
  physicalLocation : Option PhysicalNode := none
deriving Repr

/-- One entry of `runs[].results[]`, restricted to the keys `iter_results`
reads (`rule.id` flattened to `ruleDotId`, `message.text` to
`messageText`; the artifact URI / `raw` passthrough are not needed by any
claim). -/
structure SarifResultNode where
  ruleId : Option String := none
  ruleDotId : Option String := none
  level : Option String := none
  messageText : Option String := none
  locations : List LocationNode := []
  relatedLocations : List LocationNode := []
deriving Repr

/-- `_sev`: SARIF level → four-value severity, defaulting to `medium`. -/
def sarifReaderSev (level : Option String) : String :=
  match stripStr (pyLowerStr (level.getD "")) with
  | "error" => "critical"
  | "warning" => "medium"
  | "note" => "info"
  | "none" => "info"
  | _ => "medium"

/-- `_first_location`. -/
def firstLocation (res : SarifResultNode) : LocationNode :=
  match res.locations with
  | l :: _ => l
  | [] =>
    match res.relatedLocations with
    | l :: _ => l
    | [] => {}

/-- `_region` applied to a location: the region dictionary read through
defaulting gets. -/
def regionOfLoc (loc : LocationNode) : RegionNode :=
  ((loc.physicalLocation.getD {}).region).getD {}

/-- The snippet text recovered by `_region`. -/
def snippetOfRegion (reg : RegionNode) : String :=
  orTruthyOpt (reg.snippet.getD {}).text ""

/-- The dictionary yielded by `iter_results` for one result (the `file`
and `raw` keys are outside every claim and omitted). -/
structure ReaderFinding where
  rule : String
  severity : String
  start_line : Option Int
  start_col : Option Int
  end_line : Option Int
  end_col : Option Int
  message : String
  snippet : String
deriving Repr

/-- The per-result body of `iter_results`. -/
def iterResultsItem (res : SarifResultNode) : ReaderFinding :=
  let loc := firstLocation res
  let reg := regionOfLoc loc
  { rule := orTruthyOpt res.ruleId (orTruthyOpt res.ruleDotId "(no-rule)")
    severity := sarifReaderSev res.level
    start_line := reg.startLine
    start_col := reg.startColumn
    end_line := reg.endLine
    end_col := reg.endColumn
    message := orTruthyOpt res.messageText ""
    snippet := snippetOfRegion reg }

/-! ### `core/schema.py` — `WarningDTO` -/

/-- The field names of the `WarningDTO` dataclass, in declaration order. -/
def warningDTOFields : List String :=
  ["rule_id", "severity", "file_path", "message", "code_snippet", "status", "comment",
   "severity_ui", "start_line", "start_col", "end_line", "end_col", "snippet_text",
   "ml_model", "ml_label", "ml_confidence", "ml_reason"]

/-- The fields without defaults: keyword construction must supply them. -/
def warningDTORequired : List String := ["rule_id", "severity", "file_path", "message"]

/-- The methods defined on `WarningDTO`. -/
def warningDTOMethods : List String := ["eff_severity"]

/-- Keyword construction of the dataclass: `TypeError` on any keyword that
is not a declared field, or when a field without a default is missing. -/
def mkWarningDTOKw (kwargs : List String) : Except String Unit :=
  if kwargs.all (fun k => warningDTOFields.contains k) then
    if warningDTORequired.all (fun k => kwargs.contains k) then Except.ok ()
    else Except.error "TypeError: missing required argument"
  else Except.error "TypeError: unexpected keyword argument"

/-! ### `data/importers/*.py` -/

/-- `csv_report_importer._norm_sev`. -/
def csvNormSev (s : String) : String :=
  let s2 := pyLowerStr (stripStr s)
  if containsSub s2 "err" then "error"
  else if containsSub s2 "warn" then "warning"
  else if containsSub s2 "note" then "note"
  else "warning"

/-- `sarif_report_importer._norm_sev`. -/
def sarifImpNormSev (level : String) : String :=
  let s := pyLowerStr level
  if s == "error" || s == "warning" || s == "note" then s else "warning"

/-- `pdf_report_importer.RU_SEV_MAP`. -/
def ruSevMap : List (String × String) :=
  [("критический", "critical"), ("высокий", "high"), ("средний", "medium"),
   ("низкий", "low"), ("информационный", "info")]

/-- `pdf_report_importer.norm_sev`: RU word → EN level, unknown words pass
through unchanged. -/
def pdfNormSev (word : String) : String :=
  let w := pyLowerStr (stripStr word)
  (((ruSevMap.find? (fun kv => kv.1 = w)).map (fun kv => kv.2))).getD w

/-- The `WarningDTO(...)` keyword list written in `SarifReportImporter.run`. -/
def sarifImporterKwargs : List String :=
  ["id", "title", "message", "severity", "file_path", "start_line", "end_line"]

/-- The `WarningDTO(...)` keyword list written in `CsvReportImporter.run`. -/
def csvImporterKwargs : List String :=
  ["id", "title", "message", "severity", "file_path", "start_line", "end_line"]

/-- The `WarningDTO(...)` keyword list written in `PdfReportImporter.run`. -/
def pdfImporterKwargs : List String :=
  ["rule", "severity", "file_path", "start_line", "message", "code_snippet"]

/-- Constructing one record in `SarifReportImporter.run`. -/
def sarifImporterBuild : Except String Unit := mkWarningDTOKw sarifImporterKwargs

/-- Constructing one record in `CsvReportImporter.run`. -/
def csvImporterBuild : Except String Unit := mkWarningDTOKw csvImporterKwargs

/-- Constructing one record in `PdfReportImporter.run`: the severity
argument is `WarningDTO.norm_sev(...)`, an attribute the dataclass does
not define, so the lookup itself raises before the constructor runs. -/
def pdfImporterBuild : Except String Unit :=
  if warningDTOMethods.contains "norm_sev" then mkWarningDTOKw pdfImporterKwargs
  else Except.error "AttributeError: type object WarningDTO has no attribute norm_sev"

/-- The record loop of `SarifReportImporter.run` over the results of a
report: each iteration appends one constructed `WarningDTO`; a raised
exception propagates out of `run` (record values do not influence the
keyword names used). -/
def sarifImporterRun {α : Type} : List α → Except String (List Unit)
  | [] => Except.ok []
  | _ :: rest =>
    match sarifImporterBuild with
    | Except.ok w =>
      (match sarifImporterRun rest with
       | Except.ok ws => Except.ok (w :: ws)
       | Except.error e => Except.error e)
    | Except.error e => Except.error e

/-- The record loop of `CsvReportImporter.run`. -/
def csvImporterRun {α : Type} : List α → Except String (List Unit)
  | [] => Except.ok []
  | _ :: rest =>
    match csvImporterBuild with
    | Except.ok w =>
      (match csvImporterRun rest with
       | Except.ok ws => Except.ok (w :: ws)
       | Except.error e => Except.error e)
    | Except.error e => Except.error e

/-- The record loop of `PdfReportImporter.run`. -/
def pdfImporterRun {α : Type} : List α → Except String (List Unit)
  | [] => Except.ok []
  | _ :: rest =>
    match pdfImporterBuild with
    | Except.ok w =>
      (match pdfImporterRun rest with
       | Except.ok ws => Except.ok (w :: ws)
       | Except.error e => Except.error e)
    | Except.error e => Except.error e

/-- `sarif_report_importer._extract_file_and_region` needs Python `or` on
optional ints (`None` and `0` are falsy). -/
def orTruthyInt (a b : Option Int) : Option Int :=
  match a with
  | some n => if n = 0 then b else some n
  | none => b

structure ImpArtifact where
  uri : Option String := none
  uriBaseId : Option String := none
deriving Repr

structure ImpRegion where
  startLine : Option Int := none
  endLine : Option Int := none
deriving Repr

structure ImpPhysical where
  artifactLocation : Option ImpArtifact := none
  region : Option ImpRegion := none
deriving Repr

structure ImpLocation where
  physicalLocation : Option ImpPhysical := none
deriving Repr

structure ImpResult where
  locations : List ImpLocation := []
deriving Repr

/-- `sarif_report_importer._extract_file_and_region`. -/
def impExtractFileAndRegion (res : ImpResult) : String × Option Int × Option Int :=
  let loc := (res.locations.head?).getD {}
  let phys := (loc.physicalLocation).getD {}
  let art := (phys.artifactLocation).getD {}
  let uri := orTruthyOpt art.uri (orTruthyOpt art.uriBaseId "")
  let region := (phys.region).getD {}
  let start := region.startLine
  (orTruthy uri "Unknown", start, orTruthyInt region.endLine start)

/-! ### `services/code_provider.py` — `CodeProvider`

The index is modelled as the ordered list of files the `os.walk` loop of
`_reindex` visits: each entry is the file's path segments relative to the
root plus its text (reading succeeds, as `_read_text_best_effort` never
raises). -/

/-- The `by_rel` key registered for a file by `_reindex`. -/
def relKeyOf (segs : List String) : String := pyLowerStr (String.intercalate "/" segs)

/-- The filename of an indexed file. -/
def baseNameOf (segs : List String) : String := (segs.getLast?).getD ""

/-- `self._by_rel[key]` lookup (later registrations overwrite, as for a
dict). -/
def byRelLookup (files : List (List String × String)) (key : String) :
    Option (List String × String) :=
  files.reverse.find? (fun f => relKeyOf f.1 = key)

/-- `self._by_name[base]`: all indexed files with that (lowercased)
filename, in registration order. -/
def byNameLookup (files : List (List String × String)) (base : String) :
    List (List String × String) :=
  files.filter (fun f => pyLowerStr (baseNameOf f.1) = base)

/-- `key = file_hint.replace("\\", "/").lstrip("./").lower()`. -/
def normalizeHint (hint : String) : String :=
  pyLowerStr ⟨((replaceChar hint '\\' '/').data).dropWhile (fun c => c == '.' || c == '/')⟩

/-- `os.path.basename`. -/
def osBaseName (s : String) : String := (((splitOnChar s '/')).getLast?).getD ""

/-- `text.count("\n") + 1`, the line count used by the scorer. -/
def countLines (text : String) : Nat := (text.data.filter (fun c => c == '\n')).length + 1

/-- Stable descending-by-length insertion, modelling
`lines.sort(key=len, reverse=True)`. -/
def insertByLenDesc (acc : List String) (s : String) : List String :=
  match acc with
  | [] => [s]
  | t :: ts => if t.length ≥ s.length then t :: insertByLenDesc ts s else s :: t :: ts

def sortByLenDesc (l : List String) : List String := l.foldl insertByLenDesc []

/-- `CodeProvider._needles_from_snippet`. -/
def needlesFromSnippet (snippet : String) : List String :=
  if snippet == "" then []
  else
    let lines := ((splitOnChar snippet '\n').map stripStr).filter (fun l => l ≠ "")
    (sortByLenDesc lines).filter (fun l => l.length ≥ 6)

/-- The score of one candidate in `find_best`: +2 for a line number inside
the file, plus the length of the first snippet needle found in the text. -/
def scoreCandidate (line : Int) (needles : List String) (text : String) : Int :=
  let lineScore : Int := if line ≠ 0 ∧ 1 ≤ line ∧ line ≤ (countLines text : Int) then 2 else 0
  let needleScore : Int :=
    match needles.find? (fun nd => containsSub text nd) with
    | some nd => (nd.length : Int)
    | none => 0
  lineScore + needleScore

/-- The `best, best_score` scan of `find_best` (strict improvement only,
so ties keep the earlier candidate). -/
def bestLoop (line : Int) (needles : List String) :
    List (List String × String) → Option (List String × String) → Int →
    Option (List String × String)
  | [], best, _ => best
  | c :: cs, best, bestScore =>
    let score := scoreCandidate line needles c.2
    if score > bestScore then bestLoop line needles cs (some c) score
    else bestLoop line needles cs best bestScore

/-- The candidate list consulted by `find_best` when the exact relative
path misses: `self._by_name.get(base.lower(), []) if base else []`. -/
def pickCandidates (files : List (List String × String)) (key : String) :
    List (List String × String) :=
  if osBaseName key == "" then [] else byNameLookup files (osBaseName key)

/-- Steps 2–3 of `find_best` over the same-name candidates: a single
existing candidate is returned unconditionally, otherwise the scoring scan
runs and `best or candidates[0]` is returned. -/
def resolveByName : List (List String × String) → Int → List String →
    Option (List String × String)
  | [], _, _ => none
  | [c], _, _ => some c
  | c1 :: c2 :: rest, line, needles =>
    match bestLoop line needles (c1 :: c2 :: rest) none (-1) with
    | some b => some b
    | none => (c1 :: c2 :: rest).head?

/-- `CodeProvider.find_best`: exact relative-path match, then same-name
candidates, scored when ambiguous. -/
def findBest (files : List (List String × String)) (file_hint : String) (line : Int)
    (snippet : String) : Option (List String × String) :=
  match byRelLookup files (normalizeHint file_hint) with
  | some f => some f
  | none =>
    resolveByName (pickCandidates files (normalizeHint file_hint)) line
      (needlesFromSnippet snippet)

/-! ### Concrete fixtures used by the claim theorems -/

/-- The location literal used by the C7 theorems: a region with a
`startLine` and no `endLine`. -/
def c7Location (s : Int) : LocationNode :=
  { physicalLocation := some { region := some { startLine := some s } } }

/-- The same location shape for the importer's extraction. -/
def c7ImpLocation (s : Int) : ImpLocation :=
  { physicalLocation := some { region := some { startLine := some s } } }

/-- A SARIF result with level `error`, a `startLine` and no `endLine`. -/
def c7Result (s : Int) : SarifResultNode :=
  { ruleId := some "R1", level := some "error", locations := [c7Location s] }

/-- The same result shape for the importer's extraction. -/
def c7ImpResult (s : Int) : ImpResult := { locations := [c7ImpLocation s] }

/-- An oracle answer that confirms the finding, as a well-formed JSON
verdict. -/
def confirmedAnswer : String :=
  "\x7b\"status\": \"Подтверждено\", \"comment\": \"Уязвимость реальна\"\x7d"

/-- A well-formed JSON verdict, and then it followed by garbage that
contains braces. -/
def c6Json : String := "\x7b\"status\": \"Подтверждено\", \"comment\": \"плохо\"\x7d"

def c6Answer : String := c6Json ++ " мусор \x7bхвост\x7d"

/-! ## Helper lemmas -/

/-- `_parse_answer` on the empty oracle answer returns the heuristic
default verdict with the fixed fallback comment. -/
theorem parseAnswer_empty (ctx : HeuristicContext) :
    parseAnswer "" ctx
      = (if ctx.risk_hint == "likely_tp" then "Подтверждено" else "Отклонено", fallbackComment) :=
  rfl

/-- A confidence already in `[0, 1]` passes through the normalization
unchanged. -/
theorem coerceConf_of_mem_unit {c : ℚ} (h0 : 0 ≤ c) (h1 : c ≤ 1) : coerceConf c = c := by
  unfold coerceConf
  rw [if_neg (not_lt.mpr h1)]
  show (0 ⊔ 1 ⊓ c) = c
  rw [inf_eq_right.mpr h1, sup_eq_right.mpr h0]

/-- The three values `base_conf` can take. -/
theorem baseConfOf_eq (h : String) :
    baseConfOf h = 9/10 ∨ baseConfOf h = 17/20 ∨ baseConfOf h = 7/10 := by
  unfold baseConfOf
  split_ifs <;> simp

/-- `base_conf` never drops below 0.7. -/
theorem baseConfOf_ge (h : String) : (7/10 : ℚ) ≤ baseConfOf h := by
  rcases baseConfOf_eq h with he | he | he <;> rw [he] <;> norm_num

/-! ## Claims -/

/-- C10: for a fixed finding context, the confidence produced by
`annotate_one` is identical for any two oracle answers, equals the
heuristic base confidence, and that base is 0.9 / 0.85 / 0.7 according to
the risk hint. -/
theorem c10_confidence_oracle_independent (rule level file_path : String) (line : Int)
    (code text status a1 a2 : String) :
    (annotateOne rule level file_path line code text status a1).confidence
      = (annotateOne rule level file_path line code text status a2).confidence ∧
    (annotateOne rule level file_path line code text status a1).confidence
      = baseConfOf (analyzeWarning rule file_path level code text).risk_hint ∧
    baseConfOf "likely_tp" = 9/10 ∧ baseConfOf "likely_fp" = 17/20 ∧
    baseConfOf "unclear" = 7/10 :=
  ⟨rfl, rfl, rfl, rfl, rfl⟩

/-- C9: the confidence normalization of `_coerce_ai_result` always lands
in `[0, 1]`, and the 0–100-scale input 150 becomes 1.5 and clamps to 1. -/
theorem c9_confidence_range :
    (∀ c : ℚ, 0 ≤ coerceConf c ∧ coerceConf c ≤ 1) ∧ coerceConf 150 = 1 := by
  constructor
  · intro c
    unfold coerceConf
    exact ⟨le_max_left _ _, max_le (by norm_num) (min_le_left _ _)⟩
  · unfold coerceConf
    rw [if_pos (by norm_num : (150 : ℚ) > 1)]
    norm_num

/-- C2: every importer's per-record `WarningDTO` construction raises, so
`run` on a report with at least one record propagates an exception instead
of returning findings. -/
theorem c2_importers_raise_on_any_record {α : Type} (r : α) (rs : List α) :
    sarifImporterRun (r :: rs) = Except.error "TypeError: unexpected keyword argument" ∧
    csvImporterRun (r :: rs) = Except.error "TypeError: unexpected keyword argument" ∧
    pdfImporterRun (r :: rs)
      = Except.error "AttributeError: type object WarningDTO has no attribute norm_sev" :=
  ⟨rfl, rfl, rfl⟩

/-- C3 counterexample: the CSV importer normalizes the severity text
`error` to `error`, which is outside `{critical, medium, low, info}`. -/
theorem c3_severity_closure_counterexample :
    csvNormSev "error" = "error" ∧
    ¬(csvNormSev "error" = "critical" ∨ csvNormSev "error" = "medium" ∨
      csvNormSev "error" = "low" ∨ csvNormSev "error" = "info") := by
  decide

/-- C3 amended: only `sarif_reader._sev` maps into the four-value set; the
CSV and SARIF importers' normalizers map into `{error, warning, note}`,
and the PDF importer's Russian map can produce `high`. -/
theorem c3_amended_severity_codomains :
    (∀ lvl, sarifReaderSev lvl = "critical" ∨ sarifReaderSev lvl = "medium" ∨
      sarifReaderSev lvl = "low" ∨ sarifReaderSev lvl = "info") ∧
    (∀ s, csvNormSev s = "error" ∨ csvNormSev s = "warning" ∨ csvNormSev s = "note") ∧
    (∀ s, sarifImpNormSev s = "error" ∨ sarifImpNormSev s = "warning" ∨
      sarifImpNormSev s = "note") ∧
    pdfNormSev "Высокий" = "high" := by
  refine ⟨?_, ?_, ?_, by decide⟩
  · intro lvl
    unfold sarifReaderSev
    split <;> simp
  · intro s
    simp only [csvNormSev]
    split_ifs <;> simp
  · intro s
    simp only [sarifImpNormSev]
    split_ifs with h
    · rcases Bool.or_eq_true_iff.mp h with h2 | h3
      · rcases Bool.or_eq_true_iff.mp h2 with h4 | h5
        · exact Or.inl (by rw [beq_iff_eq] at h4; exact h4)
        · exact Or.inr (Or.inl (by rw [beq_iff_eq] at h5; exact h5))
      · exact Or.inr (Or.inr (by rw [beq_iff_eq] at h3; exact h3))
    · simp

/-- C4 counterexample: an oracle answer with no recoverable JSON falls
back to the heuristic guess, but the disposition confidence is the
heuristic base value 0.7, not capped at 0.3. -/
theorem c4_fallback_confidence_counterexample :
    (finalDisposition "RULE" "" "app/main.py" 10 "" "" "" "nonsense answer").comment
      = fallbackComment ∧
    (finalDisposition "RULE" "" "app/main.py" 10 "" "" "" "nonsense answer").confidence
      = 7/10 ∧
    ¬((finalDisposition "RULE" "" "app/main.py" 10 "" "" "" "nonsense answer").confidence
      ≤ 3/10) := by
  have hc : (finalDisposition "RULE" "" "app/main.py" 10 "" "" "" "nonsense answer").confidence
      = 7/10 := by
    show coerceConf (baseConfOf (analyzeWarning "RULE" "app/main.py" "" "" "").risk_hint) = 7/10
    rw [show (analyzeWarning "RULE" "app/main.py" "" "" "").risk_hint = "unclear" from rfl,
      show baseConfOf "unclear" = 7/10 from rfl]
    exact coerceConf_of_mem_unit (by norm_num) (by norm_num)
  exact ⟨by decide, hc, by rw [hc]; norm_num⟩

/-- C4 amended: on an unusable oracle answer the status follows the
heuristic guess and the comment is the fixed fallback text, but the
confidence is the heuristic base value (0.9/0.85/0.7), hence above 0.3. -/
theorem c4_amended_fallback_uses_base_confidence (rule level file_path : String) (line : Int)
    (code text status : String) :
    (annotateOne rule level file_path line code text status "").comment = fallbackComment ∧
    (annotateOne rule level file_path line code text status "").confidence
      = baseConfOf (analyzeWarning rule file_path level code text).risk_hint ∧
    (3/10 : ℚ) < (annotateOne rule level file_path line code text status "").confidence := by
  refine ⟨?_, rfl, ?_⟩
  · show (parseAnswer "" (analyzeWarning rule file_path level code text)).2 = fallbackComment
    rw [parseAnswer_empty]
  · show (3/10 : ℚ) < baseConfOf (analyzeWarning rule file_path level code text).risk_hint
    calc (3/10 : ℚ) < 7/10 := by norm_num
      _ ≤ _ := baseConfOf_ge _

/-- C7 counterexample: a SARIF result with `level="error"` and no
`endLine` yields, through `sarif_reader.iter_results`, severity
`critical` but `end_line = None`, not `end_line = start_line`. -/
theorem c7_endline_counterexample :
    (iterResultsItem (c7Result 5)).severity = "critical" ∧
    (iterResultsItem (c7Result 5)).start_line = some 5 ∧
    (iterResultsItem (c7Result 5)).end_line = none :=
  ⟨rfl, rfl, rfl⟩

/-- C7 amended: `sarif_reader` maps `error` to `critical` but copies
`end_line` verbatim (`None` when absent); the importer's
`_extract_file_and_region` does default `end` to `start`, but its
severity normalizer keeps `error` as `error`. -/
theorem c7_amended_endline_behavior (s : Int) :
    (iterResultsItem (c7Result s)).severity = "critical" ∧
    (iterResultsItem (c7Result s)).start_line = some s ∧
    (iterResultsItem (c7Result s)).end_line = none ∧
    (impExtractFileAndRegion (c7ImpResult s)).2.1 = some s ∧
    (impExtractFileAndRegion (c7ImpResult s)).2.2 = some s ∧
    sarifImpNormSev "error" = "error" :=
  ⟨rfl, rfl, rfl, rfl, rfl, rfl⟩

/-- C8 counterexample: with an empty oracle answer (no JSON verdict at
all), a finding whose heuristic risk hint is `likely_tp` receives a
`confirmed` disposition from the fallback alone. -/
theorem c8_heuristic_confirmed_counterexample :
    (analyzeWarning "SQL_INJECTION" "app/db.py" "critical" "" "").risk_hint = "likely_tp" ∧
    extractCandidate (stripStr "").data = none ∧
    (finalDisposition "SQL_INJECTION" "critical" "app/db.py" 12 "" "" "" "").status
      = "confirmed" :=
  ⟨by decide, by decide, by decide⟩

/-- C8 amended: a disposition assembled without an oracle verdict is
`confirmed` exactly when the heuristic risk hint is `likely_tp`. -/
theorem c8_amended_fallback_confirms_iff_likely_tp (rule level file_path : String) (line : Int)
    (code text status : String) :
    (annotateOne rule level file_path line code text status "").status = "confirmed" ↔
    (analyzeWarning rule file_path level code text).risk_hint = "likely_tp" := by
  have hs : (annotateOne rule level file_path line code text status "").status
      = annotateStatusOf
          (if (analyzeWarning rule file_path level code text).risk_hint == "likely_tp"
           then "Подтверждено" else "Отклонено") := by
    show annotateStatusOf (parseAnswer "" (analyzeWarning rule file_path level code text)).1 = _
    rw [parseAnswer_empty]
  rw [hs]
  by_cases hr : (analyzeWarning rule file_path level code text).risk_hint = "likely_tp"
  · rw [hr]
    decide
  · rw [if_neg (by simpa using hr)]
    exact iff_of_false (by decide) hr

/-- C1 counterexample: for a finding in a test file (heuristic risk hint
`likely_fp`, the non-production signal) whose oracle verdict is
`confirmed`, the final disposition keeps status `confirmed` and the
reported severity: no override to `false_positive`/`info` happens, and no
`source` field exists anywhere in the result record. -/
theorem c1_no_override_counterexample :
    (analyzeWarning "SQL_INJECTION" "tests/test_foo.py" "critical" "" "").risk_hint
      = "likely_fp" ∧
    (finalDisposition "SQL_INJECTION" "critical" "tests/test_foo.py" 4 "" "" ""
      confirmedAnswer).status = "confirmed" ∧
    (finalDisposition "SQL_INJECTION" "critical" "tests/test_foo.py" 4 "" "" ""
      confirmedAnswer).severity = "critical" ∧
    "confirmed" ≠ "false_positive" :=
  ⟨by decide, by decide, by decide, by decide⟩

/-- C1 amended: when the heuristic flags the path as non-production
(`likely_fp`) and the oracle verdict parses to `Подтверждено`, the final
disposition passes the confirmation through unchanged with confidence
0.85; there is no heuristic override. -/
theorem c1_amended_confirmed_passes_through (rule level file_path : String) (line : Int)
    (code text status rawAnswer : String)
    (hRisk : (analyzeWarning rule file_path level code text).risk_hint = "likely_fp")
    (hOracle : (parseAnswer rawAnswer (analyzeWarning rule file_path level code text)).1
      = "Подтверждено") :
    (finalDisposition rule level file_path line code text status rawAnswer).status
      = "confirmed" ∧
    (finalDisposition rule level file_path line code text status rawAnswer).confidence
      = 17/20 := by
  constructor
  · show coerceStatus (annotateStatusOf
      (parseAnswer rawAnswer (analyzeWarning rule file_path level code text)).1) = "confirmed"
    rw [hOracle]
    decide
  · show coerceConf (baseConfOf (analyzeWarning rule file_path level code text).risk_hint)
      = 17/20
    rw [hRisk, show baseConfOf "likely_fp" = 17/20 from rfl]
    exact coerceConf_of_mem_unit (by norm_num) (by norm_num)

/-- C1 witness: the amended theorem applied to a concrete test-file
finding with a concrete confirming oracle answer. -/
theorem c1_amended_witness :
    (finalDisposition "R1" "critical" "tests/test_foo.py" 4 "" "" "" confirmedAnswer).status
      = "confirmed" ∧
    (finalDisposition "R1" "critical" "tests/test_foo.py" 4 "" "" "" confirmedAnswer).confidence
      = 17/20 :=
  c1_amended_confirmed_passes_through "R1" "critical" "tests/test_foo.py" 4 "" "" ""
    confirmedAnswer (by decide) (by decide)

/-- The `best, best_score` scan only ever returns a scanned candidate or
the accumulator it started from. -/
theorem bestLoop_mem {line : Int} {nd : List String} :
    ∀ (cs : List (List String × String)) (best : Option (List String × String)) (sc : Int)
      (f : List String × String),
      bestLoop line nd cs best sc = some f → f ∈ cs ∨ best = some f := by
  intro cs
  induction cs with
  | nil => exact fun best sc f h => Or.inr h
  | cons c cs ih =>
    intro best sc f h
    simp only [bestLoop] at h
    split at h
    · rcases ih _ _ _ h with h1 | h2
      · exact Or.inl (List.mem_cons_of_mem _ h1)
      · have hcf : c = f := Option.some_inj.mp h2
        exact Or.inl (by rw [← hcf]; exact List.mem_cons_self _ _)
    · rcases ih _ _ _ h with h1 | h2
      · exact Or.inl (List.mem_cons_of_mem _ h1)
      · exact Or.inr h2

/-- Whatever the same-name resolution step returns was one of the
candidates. -/
theorem resolveByName_mem (cs : List (List String × String)) (line : Int) (nd : List String)
    (f : List String × String) (h : resolveByName cs line nd = some f) : f ∈ cs := by
  match cs, h with
  | [c], h =>
    have : c = f := Option.some_inj.mp h
    rw [← this]
    exact List.mem_cons_self _ _
  | c1 :: c2 :: rest, h =>
    rw [show resolveByName (c1 :: c2 :: rest) line nd
        = (match bestLoop line nd (c1 :: c2 :: rest) none (-1) with
           | some b => some b
           | none => (c1 :: c2 :: rest).head?) from rfl] at h
    rcases hb : bestLoop line nd (c1 :: c2 :: rest) none (-1) with _ | b
    · rw [hb] at h
      have : c1 = f := Option.some_inj.mp h
      rw [← this]
      exact List.mem_cons_self _ _
    · rw [hb] at h
      rcases bestLoop_mem _ _ _ _ hb with h1 | h2
      · have : b = f := Option.some_inj.mp h
        rw [← this]
        exact h1
      · exact absurd h2 (by simp)

/-- Every candidate consulted after the relative-path miss has the
basename of the normalized hint. -/
theorem pickCandidates_base (files : List (List String × String)) (key : String)
    (f : List String × String) (h : f ∈ pickCandidates files key) :
    pyLowerStr (baseNameOf f.1) = osBaseName key := by
  unfold pickCandidates byNameLookup at h
  split at h
  · simp at h
  · exact of_decide_eq_true (List.mem_filter.mp h).2

/-- C5 counterexample: for an index holding `c/x.py` and `a/b/x.py`, the
2-segment path tail `b/x.py` of the second file is not a registered key,
and resolving the hint `b/x.py` returns `c/x.py` (the first same-name
candidate), not the longest-suffix match `a/b/x.py`. -/
theorem c5_no_path_tail_counterexample :
    byRelLookup [(["c", "x.py"], ""), (["a", "b", "x.py"], "")] "b/x.py" = none ∧
    findBest [(["c", "x.py"], ""), (["a", "b", "x.py"], "")] "b/x.py" 0 ""
      = some (["c", "x.py"], "") ∧
    (["c", "x.py"] : List String) ≠ ["a", "b", "x.py"] :=
  ⟨by decide, by decide, by decide⟩

/-- C5 amended: the index registers only the full relative path and the
bare filename, and resolution accordingly returns either the exact
relative-path match or a candidate sharing the hint's basename — there is
no path-tail tier. -/
theorem c5_amended_resolution_rel_or_basename (files : List (List String × String))
    (hint : String) (line : Int) (snippet : String) (f : List String × String)
    (h : findBest files hint line snippet = some f) :
    relKeyOf f.1 = normalizeHint hint ∨
    pyLowerStr (baseNameOf f.1) = osBaseName (normalizeHint hint) := by
  unfold findBest at h
  rcases hrel : byRelLookup files (normalizeHint hint) with _ | g
  · rw [hrel] at h
    exact Or.inr (pickCandidates_base _ _ _ (resolveByName_mem _ _ _ _ h))
  · rw [hrel] at h
    have hgf : g = f := Option.some_inj.mp h
    unfold byRelLookup at hrel
    have hkey : relKeyOf g.1 = normalizeHint hint := by
      have hfind := List.find?_some hrel
      simpa using hfind
    exact Or.inl (hgf ▸ hkey)

/-- C5 witness: the amended theorem applied to a concrete index and hint
(resolved through the exact relative-path tier). -/
theorem c5_amended_witness :
    relKeyOf ((["a", "b", "x.py"], "") : List String × String).1 = normalizeHint "a/b/x.py" ∨
    pyLowerStr (baseNameOf ((["a", "b", "x.py"], "") : List String × String).1)
      = osBaseName (normalizeHint "a/b/x.py") :=
  c5_amended_resolution_rel_or_basename [(["c", "x.py"], ""), (["a", "b", "x.py"], "")]
    "a/b/x.py" 0 "" (["a", "b", "x.py"], "") (by decide)

/-- C6 counterexample: the answer contains a well-formed JSON object, yet
`_parse_answer` (which slices from the first opening to the last closing
brace instead of depth-matching) fails on the trailing garbage with extra
braces and falls back to the heuristic default verdict. -/
theorem c6_trailing_brace_counterexample :
    (jsonLoads c6Json).isSome = true ∧
    listHasSub c6Json.data c6Answer.data = true ∧
    (analyzeWarning "RULE" "app/a.py" "" "" "").risk_hint = "unclear" ∧
    parseAnswer c6Answer (analyzeWarning "RULE" "app/a.py" "" "" "")
      = ("Отклонено", fallbackComment) :=
  ⟨by decide, by decide, by decide, by decide⟩

/-- C6 amended: the first-to-last-brace slice does recover the JSON object
whenever no brace characters occur in the surrounding prose; braces in
the trailing garbage instead break the parse (see the counterexample). -/
theorem c6_amended_extraction_brace_free_surroundings (p j t : List Char)
    (hp : ∀ c ∈ p, c ≠ '{' ∧ c ≠ '}')
    (ht : ∀ c ∈ t, c ≠ '{' ∧ c ≠ '}')
    (hhead : j.head? = some '{') (hlast : j.getLast? = some '}') :
    extractCandidate (p ++ j ++ t) = some j := by
  have hjne : j ≠ [] := by
    intro hnil
    rw [hnil] at hhead
    simp at hhead
  have hpF : ∀ c ∈ p, (c == '{') = false := fun c hc => by simpa using (hp c hc).1
  have hjF : j.findIdx (fun c => c == '{') = 0 := by
    cases j with
    | nil => exact absurd rfl hjne
    | cons a as =>
      have ha : a = '{' := by simpa using hhead
      simp [List.findIdx_cons, ha]
  have hfi : (p ++ j ++ t).findIdx (fun c => c == '{') = p.length := by
    rw [List.append_assoc, List.findIdx_append, List.findIdx_eq_length.mpr hpF,
      List.findIdx_append, hjF, if_pos (List.length_pos.mpr hjne)]
    simp
  have htF : ∀ c ∈ t.reverse, (c == '}') = false := fun c hc => by
    simpa using (ht c (List.mem_reverse.mp hc)).2
  have hjrne : j.reverse ≠ [] := by simpa using hjne
  have hjR : j.reverse.findIdx (fun c => c == '}') = 0 := by
    have hh : j.reverse.head? = some '}' := by rw [List.head?_reverse]; exact hlast
    cases hrev : j.reverse with
    | nil => exact absurd hrev hjrne
    | cons b bs =>
      rw [hrev] at hh
      have hb : b = '}' := by simpa using hh
      simp [List.findIdx_cons, hb]
  have hri : (p ++ j ++ t).reverse.findIdx (fun c => c == '}') = t.length := by
    rw [show (p ++ j ++ t).reverse = t.reverse ++ (j.reverse ++ p.reverse) by simp]
    rw [List.findIdx_append, List.findIdx_eq_length.mpr htF,
      List.findIdx_append, hjR, if_pos (List.length_pos.mpr hjrne)]
    simp
  have hjpos : 0 < j.length := List.length_pos.mpr hjne
  have hlt1 : p.length < (p ++ j ++ t).length := by
    simp only [List.length_append]
    omega
  have hlt2 : t.length < (p ++ j ++ t).length := by
    simp only [List.length_append]
    omega
  unfold extractCandidate
  rw [hfi, hri, if_neg (by push_neg; exact ⟨Nat.ne_of_lt hlt1, Nat.ne_of_lt hlt2⟩)]
  congr 1
  rw [List.append_assoc, List.drop_left]
  have hl : (p ++ (j ++ t)).length - t.length - p.length = j.length := by
    simp only [List.length_append]
    omega
  rw [hl, List.take_left]

/-- C6 witness: the amended theorem applied to concrete brace-free prose
around a concrete JSON object. -/
theorem c6_amended_witness :
    extractCandidate ("prose: ".data ++ "\x7b\"ok\": 1\x7d".data ++ " tail).".data)
      = some ("\x7b\"ok\": 1\x7d".data) :=
  c6_amended_extraction_brace_free_surroundings "prose: ".data "\x7b\"ok\": 1\x7d".data
    " tail).".data (by decide) (by decide) (by decide) (by decide)

end Diplom
